import Mathlib

/-!
Verification of the MPSSE command encoding and read-offset accounting engine
(ftdi-mpsse, src/lib.rs).

The development shallowly embeds the two encoding strategies of the crate:

* the Dynamic Builder `MpsseCmdBuilder`, a growable byte buffer with one
  chainable append method per command (src/lib.rs lines 410-945); and
* the Static Builder, the `mpsse` macro, which expands a fixed command list
  to a byte array while threading a cumulative `read_len` ledger and
  recording, for `const ID = command(...)` forms, the offset or range of the
  command's response bytes (src/lib.rs lines 1095-1276).

Bytes are modelled as `Nat` values (callers pass values below 256, as the
Rust `u8`/`Vec<u8>` types enforce); `x & 0xFF` becomes `x % 256` and
`(x >> 8) & 0xFF` becomes `x / 256 % 256`.  A Rust `assert!` failure (a
panic, fatal by design) and a failing macro expansion are both modelled as
`Option.none`: no bytes are produced.
-/

namespace FtdiMpsse

/-- MPSSE opcodes, src/lib.rs `enum MpsseCmd` (lines 22-56). -/
inductive MpsseCmd where
  | SetDataBitsLowbyte
  | GetDataBitsLowbyte
  | SetDataBitsHighbyte
  | GetDataBitsHighbyte
  | EnableLoopback
  | DisableLoopback
  | SetClockFrequency
  | SendImmediate
  | WaitOnIOHigh
  | WaitOnIOLow
  | DisableClockDivide
  | EnableClockDivide
  | Enable3PhaseClocking
  | Disable3PhaseClocking
  | EnableAdaptiveClocking
  | DisableAdaptiveClocking
deriving DecidableEq

/-- The discriminant byte of each `MpsseCmd` variant. -/
def MpsseCmd.val : MpsseCmd → Nat
  | .SetDataBitsLowbyte => 0x80
  | .GetDataBitsLowbyte => 0x81
  | .SetDataBitsHighbyte => 0x82
  | .GetDataBitsHighbyte => 0x83
  | .EnableLoopback => 0x84
  | .DisableLoopback => 0x85
  | .SetClockFrequency => 0x86
  | .SendImmediate => 0x87
  | .WaitOnIOHigh => 0x88
  | .WaitOnIOLow => 0x89
  | .DisableClockDivide => 0x8A
  | .EnableClockDivide => 0x8B
  | .Enable3PhaseClocking => 0x8C
  | .Disable3PhaseClocking => 0x8D
  | .EnableAdaptiveClocking => 0x96
  | .DisableAdaptiveClocking => 0x97

/-- Byte-granular clock-out modes, src/lib.rs `enum ClockDataOut`. -/
inductive ClockDataOut where
  | MsbPos
  | MsbNeg
  | LsbPos
  | LsbNeg
deriving DecidableEq

/-- Discriminant byte of `ClockDataOut`. -/
def ClockDataOut.val : ClockDataOut → Nat
  | .MsbPos => 0x10
  | .MsbNeg => 0x11
  | .LsbPos => 0x18
  | .LsbNeg => 0x19

/-- Bit-granular clock-out modes, src/lib.rs `enum ClockBitsOut`. -/
inductive ClockBitsOut where
  | MsbPos
  | MsbNeg
  | LsbPos
  | LsbNeg
deriving DecidableEq

/-- Discriminant byte of `ClockBitsOut`. -/
def ClockBitsOut.val : ClockBitsOut → Nat
  | .MsbPos => 0x12
  | .MsbNeg => 0x13
  | .LsbPos => 0x1A
  | .LsbNeg => 0x1B

/-- Byte-granular clock-in modes, src/lib.rs `enum ClockDataIn`. -/
inductive ClockDataIn where
  | MsbPos
  | MsbNeg
  | LsbPos
  | LsbNeg
deriving DecidableEq

/-- Discriminant byte of `ClockDataIn`. -/
def ClockDataIn.val : ClockDataIn → Nat
  | .MsbPos => 0x20
  | .MsbNeg => 0x24
  | .LsbPos => 0x28
  | .LsbNeg => 0x2C

/-- Bit-granular clock-in modes, src/lib.rs `enum ClockBitsIn`. -/
inductive ClockBitsIn where
  | MsbPos
  | MsbNeg
  | LsbPos
  | LsbNeg
deriving DecidableEq

/-- Discriminant byte of `ClockBitsIn`. -/
def ClockBitsIn.val : ClockBitsIn → Nat
  | .MsbPos => 0x22
  | .MsbNeg => 0x26
  | .LsbPos => 0x2A
  | .LsbNeg => 0x2E

/-- Byte-granular full-duplex modes, src/lib.rs `enum ClockData`. -/
inductive ClockData where
  | MsbPosIn
  | MsbNegIn
  | LsbPosIn
  | LsbNegIn
deriving DecidableEq

/-- Discriminant byte of `ClockData`. -/
def ClockData.val : ClockData → Nat
  | .MsbPosIn => 0x31
  | .MsbNegIn => 0x34
  | .LsbPosIn => 0x39
  | .LsbNegIn => 0x3C

/-- Bit-granular full-duplex modes, src/lib.rs `enum ClockBits`. -/
inductive ClockBits where
  | MsbPosIn
  | MsbNegIn
  | LsbPosIn
  | LsbNegIn
deriving DecidableEq

/-- Discriminant byte of `ClockBits`. -/
def ClockBits.val : ClockBits → Nat
  | .MsbPosIn => 0x33
  | .MsbNegIn => 0x36
  | .LsbPosIn => 0x3B
  | .LsbNegIn => 0x3E

/-- TMS clock-out modes, src/lib.rs `enum ClockTMSOut`. -/
inductive ClockTMSOut where
  | PosEdge
  | NegEdge
deriving DecidableEq

/-- Discriminant byte of `ClockTMSOut`. -/
def ClockTMSOut.val : ClockTMSOut → Nat
  | .PosEdge => 0x4A
  | .NegEdge => 0x4B

/-- TMS clock-out with TDO capture modes, src/lib.rs `enum ClockTMS`. -/
inductive ClockTMS where
  | PosTMSPosTDO
  | PosTMSNegTDO
  | NegTMSPosTDO
  | NegTMSNegTDO
deriving DecidableEq

/-- Discriminant byte of `ClockTMS`. -/
def ClockTMS.val : ClockTMS → Nat
  | .PosTMSPosTDO => 0x6A
  | .PosTMSNegTDO => 0x6E
  | .NegTMSPosTDO => 0x6B
  | .NegTMSNegTDO => 0x6F

/-- Dynamic command builder, src/lib.rs line 410:
`pub struct MpsseCmdBuilder(pub Vec<u8>)`. -/
structure MpsseCmdBuilder where
  buf : List Nat
deriving DecidableEq

/-- `MpsseCmdBuilder::new` (line 422): an empty buffer. -/
def MpsseCmdBuilder.new : MpsseCmdBuilder := ⟨[]⟩

/-- `MpsseCmdBuilder::with_vec` (line 435): wrap a pre-existing buffer. -/
def MpsseCmdBuilder.with_vec (v : List Nat) : MpsseCmdBuilder := ⟨v⟩

/-- `MpsseCmdBuilder::as_slice` (line 455): view the accumulated bytes. -/
def MpsseCmdBuilder.as_slice (b : MpsseCmdBuilder) : List Nat := b.buf

/-- `MpsseCmdBuilder::set_clock` (lines 471-483).  Pushes the optional
divide toggle opcode, then the frequency opcode and the low 16 bits of the
divisor little-endian: `divisor & 0xFF` then `(divisor >> 8) & 0xFF`. -/
def MpsseCmdBuilder.set_clock (b : MpsseCmdBuilder) (divisor : Nat)
    (clkdiv : Option Bool) : MpsseCmdBuilder :=
  let pre : List Nat :=
    match clkdiv with
    | some true => [MpsseCmd.EnableClockDivide.val]
    | some false => [MpsseCmd.DisableClockDivide.val]
    | none => []
  ⟨b.buf ++ pre ++ [MpsseCmd.SetClockFrequency.val, divisor % 256, divisor / 256 % 256]⟩

/-- `MpsseCmdBuilder::enable_loopback` (line 500). -/
def MpsseCmdBuilder.enable_loopback (b : MpsseCmdBuilder) : MpsseCmdBuilder :=
  ⟨b.buf ++ [MpsseCmd.EnableLoopback.val]⟩

/-- `MpsseCmdBuilder::disable_loopback` (line 520). -/
def MpsseCmdBuilder.disable_loopback (b : MpsseCmdBuilder) : MpsseCmdBuilder :=
  ⟨b.buf ++ [MpsseCmd.DisableLoopback.val]⟩

/-- `MpsseCmdBuilder::disable_3phase_data_clocking` (line 549). -/
def MpsseCmdBuilder.disable_3phase_data_clocking (b : MpsseCmdBuilder) : MpsseCmdBuilder :=
  ⟨b.buf ++ [MpsseCmd.Disable3PhaseClocking.val]⟩

/-- `MpsseCmdBuilder::enable_3phase_data_clocking` (line 581). -/
def MpsseCmdBuilder.enable_3phase_data_clocking (b : MpsseCmdBuilder) : MpsseCmdBuilder :=
  ⟨b.buf ++ [MpsseCmd.Enable3PhaseClocking.val]⟩

/-- `MpsseCmdBuilder::enable_adaptive_data_clocking` (line 589): pushes
`MpsseCmd::EnableAdaptiveClocking` (0x96). -/
def MpsseCmdBuilder.enable_adaptive_data_clocking (b : MpsseCmdBuilder) : MpsseCmdBuilder :=
  ⟨b.buf ++ [MpsseCmd.EnableAdaptiveClocking.val]⟩

/-- `MpsseCmdBuilder::disable_adaptive_data_clocking` (line 597): pushes
`MpsseCmd::DisableAdaptiveClocking` (0x97). -/
def MpsseCmdBuilder.disable_adaptive_data_clocking (b : MpsseCmdBuilder) : MpsseCmdBuilder :=
  ⟨b.buf ++ [MpsseCmd.DisableAdaptiveClocking.val]⟩

/-- `MpsseCmdBuilder::set_gpio_lower` (lines 629-633): opcode, state byte,
direction byte, all verbatim. -/
def MpsseCmdBuilder.set_gpio_lower (b : MpsseCmdBuilder) (state direction : Nat) :
    MpsseCmdBuilder :=
  ⟨b.buf ++ [MpsseCmd.SetDataBitsLowbyte.val, state, direction]⟩

/-- `MpsseCmdBuilder::set_gpio_upper` (lines 668-672). -/
def MpsseCmdBuilder.set_gpio_upper (b : MpsseCmdBuilder) (state direction : Nat) :
    MpsseCmdBuilder :=
  ⟨b.buf ++ [MpsseCmd.SetDataBitsHighbyte.val, state, direction]⟩

/-- `MpsseCmdBuilder::gpio_lower` (lines 693-696). -/
def MpsseCmdBuilder.gpio_lower (b : MpsseCmdBuilder) : MpsseCmdBuilder :=
  ⟨b.buf ++ [MpsseCmd.GetDataBitsLowbyte.val]⟩

/-- `MpsseCmdBuilder::gpio_upper` (lines 722-725). -/
def MpsseCmdBuilder.gpio_upper (b : MpsseCmdBuilder) : MpsseCmdBuilder :=
  ⟨b.buf ++ [MpsseCmd.GetDataBitsHighbyte.val]⟩

/-- `MpsseCmdBuilder::send_immediate` (lines 739-742). -/
def MpsseCmdBuilder.send_immediate (b : MpsseCmdBuilder) : MpsseCmdBuilder :=
  ⟨b.buf ++ [MpsseCmd.SendImmediate.val]⟩

/-- `MpsseCmdBuilder::wait_on_io_high` (lines 761-764). -/
def MpsseCmdBuilder.wait_on_io_high (b : MpsseCmdBuilder) : MpsseCmdBuilder :=
  ⟨b.buf ++ [MpsseCmd.WaitOnIOHigh.val]⟩

/-- `MpsseCmdBuilder::wait_on_io_low` (lines 783-786). -/
def MpsseCmdBuilder.wait_on_io_low (b : MpsseCmdBuilder) : MpsseCmdBuilder :=
  ⟨b.buf ++ [MpsseCmd.WaitOnIOLow.val]⟩

/-- `MpsseCmdBuilder::clock_data_out` (lines 794-805):
`assert!(len <= 65536)` (a failed assert panics: `none`); length 0 returns
the builder unchanged; otherwise pushes
`[mode, (len-1) & 0xFF, ((len-1) >> 8) & 0xFF]` then the payload. -/
def MpsseCmdBuilder.clock_data_out (b : MpsseCmdBuilder) (mode : ClockDataOut)
    (data : List Nat) : Option MpsseCmdBuilder :=
  let len := data.length
  if len ≤ 65536 then
    if len = 0 then some b
    else some ⟨b.buf ++ [mode.val, (len - 1) % 256, (len - 1) / 256 % 256] ++ data⟩
  else none

/-- `MpsseCmdBuilder::clock_data_in` (lines 817-826): same length handling
as `clock_data_out`, no payload. -/
def MpsseCmdBuilder.clock_data_in (b : MpsseCmdBuilder) (mode : ClockDataIn)
    (len : Nat) : Option MpsseCmdBuilder :=
  if len ≤ 65536 then
    if len = 0 then some b
    else some ⟨b.buf ++ [mode.val, (len - 1) % 256, (len - 1) / 256 % 256]⟩
  else none

/-- `MpsseCmdBuilder::clock_data` (lines 831-842): full duplex, same length
handling, payload appended. -/
def MpsseCmdBuilder.clock_data (b : MpsseCmdBuilder) (mode : ClockData)
    (data : List Nat) : Option MpsseCmdBuilder :=
  let len := data.length
  if len ≤ 65536 then
    if len = 0 then some b
    else some ⟨b.buf ++ [mode.val, (len - 1) % 256, (len - 1) / 256 % 256] ++ data⟩
  else none

/-- `MpsseCmdBuilder::clock_bits_out` (lines 852-860):
`assert!(len <= 8)`; length 0 is a no-op; otherwise pushes
`[mode, len - 1, data]`. -/
def MpsseCmdBuilder.clock_bits_out (b : MpsseCmdBuilder) (mode : ClockBitsOut)
    (data len : Nat) : Option MpsseCmdBuilder :=
  if len ≤ 8 then
    if len = 0 then some b
    else some ⟨b.buf ++ [mode.val, len - 1, data]⟩
  else none

/-- `MpsseCmdBuilder::clock_bits_in` (lines 869-877). -/
def MpsseCmdBuilder.clock_bits_in (b : MpsseCmdBuilder) (mode : ClockBitsIn)
    (len : Nat) : Option MpsseCmdBuilder :=
  if len ≤ 8 then
    if len = 0 then some b
    else some ⟨b.buf ++ [mode.val, len - 1]⟩
  else none

/-- `MpsseCmdBuilder::clock_bits` (lines 886-894). -/
def MpsseCmdBuilder.clock_bits (b : MpsseCmdBuilder) (mode : ClockBits)
    (data len : Nat) : Option MpsseCmdBuilder :=
  if len ≤ 8 then
    if len = 0 then some b
    else some ⟨b.buf ++ [mode.val, len - 1, data]⟩
  else none

/-- `MpsseCmdBuilder::clock_tms_out` (lines 905-922):
`assert!(len <= 7)`; length 0 is a no-op; if `tdi` then `data |= 0x80`;
pushes `[mode, len - 1, data]`. -/
def MpsseCmdBuilder.clock_tms_out (b : MpsseCmdBuilder) (mode : ClockTMSOut)
    (data : Nat) (tdi : Bool) (len : Nat) : Option MpsseCmdBuilder :=
  if len ≤ 7 then
    if len = 0 then some b
    else some ⟨b.buf ++ [mode.val, len - 1, if tdi then data ||| 0x80 else data]⟩
  else none

/-- `MpsseCmdBuilder::clock_tms` (lines 933-944): as `clock_tms_out`, with
TDO capture. -/
def MpsseCmdBuilder.clock_tms (b : MpsseCmdBuilder) (mode : ClockTMS)
    (data : Nat) (tdi : Bool) (len : Nat) : Option MpsseCmdBuilder :=
  if len ≤ 7 then
    if len = 0 then some b
    else some ⟨b.buf ++ [mode.val, len - 1, if tdi then data ||| 0x80 else data]⟩
  else none

/-- One command invocation, covering the command surface shared by the
Dynamic Builder methods and the `mpsse` macro rules (plus `set_clock`,
which only the Dynamic Builder offers). -/
inductive Cmd where
  | enable_loopback
  | disable_loopback
  | enable_3phase_data_clocking
  | disable_3phase_data_clocking
  | enable_adaptive_data_clocking
  | disable_adaptive_data_clocking
  | set_clock (divisor : Nat) (clkdiv : Option Bool)
  | set_gpio_lower (state direction : Nat)
  | set_gpio_upper (state direction : Nat)
  | gpio_lower
  | gpio_upper
  | send_immediate
  | wait_on_io_high
  | wait_on_io_low
  | clock_data_out (mode : ClockDataOut) (data : List Nat)
  | clock_data_in (mode : ClockDataIn) (len : Nat)
  | clock_data (mode : ClockData) (data : List Nat)
  | clock_bits_out (mode : ClockBitsOut) (data len : Nat)
  | clock_bits_in (mode : ClockBitsIn) (len : Nat)
  | clock_bits (mode : ClockBits) (data len : Nat)
  | clock_tms_out (mode : ClockTMSOut) (data : Nat) (tdi : Bool) (len : Nat)
  | clock_tms (mode : ClockTMS) (data : Nat) (tdi : Bool) (len : Nat)
deriving DecidableEq

/-- Run one command through the corresponding Dynamic Builder method.
Infallible methods are wrapped in `some`. -/
def applyCmd (b : MpsseCmdBuilder) : Cmd → Option MpsseCmdBuilder
  | .enable_loopback => some b.enable_loopback
  | .disable_loopback => some b.disable_loopback
  | .enable_3phase_data_clocking => some b.enable_3phase_data_clocking
  | .disable_3phase_data_clocking => some b.disable_3phase_data_clocking
  | .enable_adaptive_data_clocking => some b.enable_adaptive_data_clocking
  | .disable_adaptive_data_clocking => some b.disable_adaptive_data_clocking
  | .set_clock divisor clkdiv => some (b.set_clock divisor clkdiv)
  | .set_gpio_lower state direction => some (b.set_gpio_lower state direction)
  | .set_gpio_upper state direction => some (b.set_gpio_upper state direction)
  | .gpio_lower => some b.gpio_lower
  | .gpio_upper => some b.gpio_upper
  | .send_immediate => some b.send_immediate
  | .wait_on_io_high => some b.wait_on_io_high
  | .wait_on_io_low => some b.wait_on_io_low
  | .clock_data_out mode data => b.clock_data_out mode data
  | .clock_data_in mode len => b.clock_data_in mode len
  | .clock_data mode data => b.clock_data mode data
  | .clock_bits_out mode data len => b.clock_bits_out mode data len
  | .clock_bits_in mode len => b.clock_bits_in mode len
  | .clock_bits mode data len => b.clock_bits mode data len
  | .clock_tms_out mode data tdi len => b.clock_tms_out mode data tdi len
  | .clock_tms mode data tdi len => b.clock_tms mode data tdi len

/-- Run a command list through the Dynamic Builder, left to right,
aborting at the first panic. -/
def applyCmds (b : MpsseCmdBuilder) : List Cmd → Option MpsseCmdBuilder
  | [] => some b
  | c :: cs =>
    match applyCmd b c with
    | none => none
    | some b2 => applyCmds b2 cs

/-- One step of the `mpsse` macro expansion (src/lib.rs lines 1158-1264),
given the cumulative `read_len` threaded by the macro.  Returns the bytes
the rule appends, the updated `read_len`, and the `(offset, width)` record
that the `const ID = command(...)` form of a read-declaring command binds
(the macro records `read_len` itself, or the range
`read_len..read_len + len`, before advancing `read_len`).

`none` models an expansion that produces no bytes:

* a failed length assert (`assert!` for `let` bindings, `const_assert!` for
  `const` bindings, lines 1108-1113);
* the `enable_adaptive_data_clocking` / `disable_adaptive_data_clocking`
  rules (lines 1170-1175), which emit `MpsseCmd::EnableDataClocking` and
  `MpsseCmd::DisableDataClocking` — variants that do not exist in the
  `MpsseCmd` enum, so the expansion never compiles;
* `set_clock`, for which the macro has no rule at all. -/
def mpsseStep (read_len : Nat) : Cmd → Option (List Nat × Nat × Option (Nat × Nat))
  | .enable_loopback => some ([MpsseCmd.EnableLoopback.val], read_len, none)
  | .disable_loopback => some ([MpsseCmd.DisableLoopback.val], read_len, none)
  | .enable_3phase_data_clocking =>
    some ([MpsseCmd.Enable3PhaseClocking.val], read_len, none)
  | .disable_3phase_data_clocking =>
    some ([MpsseCmd.Disable3PhaseClocking.val], read_len, none)
  | .enable_adaptive_data_clocking => none
  | .disable_adaptive_data_clocking => none
  | .set_clock _ _ => none
  | .set_gpio_lower state direction =>
    some ([MpsseCmd.SetDataBitsLowbyte.val, state, direction], read_len, none)
  | .set_gpio_upper state direction =>
    some ([MpsseCmd.SetDataBitsHighbyte.val, state, direction], read_len, none)
  | .gpio_lower =>
    some ([MpsseCmd.GetDataBitsLowbyte.val], read_len + 1, some (read_len, 1))
  | .gpio_upper =>
    some ([MpsseCmd.GetDataBitsHighbyte.val], read_len + 1, some (read_len, 1))
  | .send_immediate => some ([MpsseCmd.SendImmediate.val], read_len, none)
  | .wait_on_io_high => some ([MpsseCmd.WaitOnIOHigh.val], read_len, none)
  | .wait_on_io_low => some ([MpsseCmd.WaitOnIOLow.val], read_len, none)
  | .clock_data_out mode data =>
    let len := data.length
    if 0 < len ∧ len ≤ 65536 then
      some (mode.val :: (len - 1) % 256 :: (len - 1) / 256 % 256 :: data, read_len, none)
    else none
  | .clock_data_in mode len =>
    if 0 < len ∧ len ≤ 65536 then
      some ([mode.val, (len - 1) % 256, (len - 1) / 256 % 256],
        read_len + len, some (read_len, len))
    else none
  | .clock_data mode data =>
    let len := data.length
    if 0 < len ∧ len ≤ 65536 then
      some (mode.val :: (len - 1) % 256 :: (len - 1) / 256 % 256 :: data,
        read_len + len, some (read_len, len))
    else none
  | .clock_bits_out mode data len =>
    if 0 < len ∧ len ≤ 8 then
      some ([mode.val, len - 1, data], read_len, none)
    else none
  | .clock_bits_in mode len =>
    if 0 < len ∧ len ≤ 8 then
      some ([mode.val, len - 1], read_len + 1, some (read_len, 1))
    else none
  | .clock_bits mode data len =>
    if 0 < len ∧ len ≤ 8 then
      some ([mode.val, len - 1, data], read_len + 1, some (read_len, 1))
    else none
  | .clock_tms_out mode data tdi len =>
    if 0 < len ∧ len ≤ 7 then
      some ([mode.val, len - 1, data ||| (if tdi then 0x80 else 0)], read_len, none)
    else none
  | .clock_tms mode data tdi len =>
    if 0 < len ∧ len ≤ 7 then
      some ([mode.val, len - 1, data ||| (if tdi then 0x80 else 0)],
        read_len + 1, some (read_len, 1))
    else none

/-- Expand a whole command list with the `mpsse` macro semantics: the
concatenated bytes, the final `read_len`, and the `(offset, width)` records
of the read-declaring commands in order. -/
def mpsseBuild (read_len : Nat) : List Cmd → Option (List Nat × Nat × List (Nat × Nat))
  | [] => some ([], read_len, [])
  | c :: cs =>
    match mpsseStep read_len c with
    | none => none
    | some (bs, rl, r) =>
      match mpsseBuild rl cs with
      | none => none
      | some (bs2, rl2, recs) => some (bs ++ bs2, rl2, r.toList ++ recs)

/-- The number of response bytes a command declares to the read ledger,
read off the `read_len` increment of its `mpsse` macro rule. -/
def Cmd.respWidth : Cmd → Nat
  | .gpio_lower => 1
  | .gpio_upper => 1
  | .clock_data_in _ len => len
  | .clock_data _ data => data.length
  | .clock_bits_in _ _ => 1
  | .clock_bits _ _ _ => 1
  | .clock_tms _ _ _ _ => 1
  | _ => 0

/-- Whether a command declares response bytes (has a `const ID = ...`
recording form in the `mpsse` macro). -/
def Cmd.readDeclaring : Cmd → Bool
  | .gpio_lower => true
  | .gpio_upper => true
  | .clock_data_in _ _ => true
  | .clock_data _ _ => true
  | .clock_bits_in _ _ => true
  | .clock_bits _ _ _ => true
  | .clock_tms _ _ _ _ => true
  | _ => false

/-- Cumulative offsets: `partialSums n [w1, ..., wk]` is
`[n, n + w1, ..., n + w1 + ... + w(k-1)]`. -/
def partialSums (n : Nat) : List Nat → List Nat
  | [] => []
  | w :: ws => n :: partialSums (n + w) ws

/-- Claim C1: for every byte-granular clocking operation (`clock_data_out`,
`clock_data_in`, `clock_data`) and every requested length in `1..=65536`,
the appended bytes are the mode's opcode, then a 2-byte little-endian field
holding `length - 1` (the low byte, then the high byte, which together
decode to `length - 1`), then the payload verbatim for the out/duplex
variants; a length of 65536 encodes the field as `0xFF 0xFF`. -/
theorem clock_data_len_minus_one (b : MpsseCmdBuilder) :
    (∀ (mode : ClockDataOut) (data : List Nat),
      1 ≤ data.length → data.length ≤ 65536 →
      b.clock_data_out mode data
        = some ⟨b.buf ++ [mode.val, (data.length - 1) % 256,
            (data.length - 1) / 256 % 256] ++ data⟩
      ∧ (data.length - 1) % 256 + 256 * ((data.length - 1) / 256 % 256)
          = data.length - 1)
  ∧ (∀ (mode : ClockDataIn) (len : Nat), 1 ≤ len → len ≤ 65536 →
      b.clock_data_in mode len
        = some ⟨b.buf ++ [mode.val, (len - 1) % 256, (len - 1) / 256 % 256]⟩
      ∧ (len - 1) % 256 + 256 * ((len - 1) / 256 % 256) = len - 1)
  ∧ (∀ (mode : ClockData) (data : List Nat),
      1 ≤ data.length → data.length ≤ 65536 →
      b.clock_data mode data
        = some ⟨b.buf ++ [mode.val, (data.length - 1) % 256,
            (data.length - 1) / 256 % 256] ++ data⟩
      ∧ (data.length - 1) % 256 + 256 * ((data.length - 1) / 256 % 256)
          = data.length - 1)
  ∧ ((65536 - 1) % 256 = 0xFF ∧ (65536 - 1) / 256 % 256 = 0xFF) := by
  refine ⟨?_, ?_, ?_, by decide, by decide⟩
  · intro mode data h1 h2
    refine ⟨?_, by omega⟩
    rw [MpsseCmdBuilder.clock_data_out, if_pos h2, if_neg (by omega)]
  · intro mode len h1 h2
    refine ⟨?_, by omega⟩
    rw [MpsseCmdBuilder.clock_data_in, if_pos h2, if_neg (by omega)]
  · intro mode data h1 h2
    refine ⟨?_, by omega⟩
    rw [MpsseCmdBuilder.clock_data, if_pos h2, if_neg (by omega)]

/-- Witness for C1: `clock_data_in` at the maximal length 65536 encodes the
length field as `0xFF 0xFF`. -/
theorem clock_data_len_minus_one_witness :
    ((1 : Nat) ≤ 65536 ∧ (65536 : Nat) ≤ 65536)
    ∧ MpsseCmdBuilder.new.clock_data_in ClockDataIn.MsbPos 65536
        = some ⟨[ClockDataIn.MsbPos.val, 0xFF, 0xFF]⟩ := by
  refine ⟨⟨by decide, by decide⟩, ?_⟩
  have h := ((clock_data_len_minus_one MpsseCmdBuilder.new).2.1
    ClockDataIn.MsbPos 65536 (by decide) (by decide)).1
  simpa [MpsseCmdBuilder.new] using h

/-- Counterexample to claim C4: the claim says a zero-length request is a
silent no-op in both builders, but the Static Builder (`mpsse` macro)
asserts `len > 0` for every clocking family, so a zero-length
`clock_data_out` fails the assert instead of appending nothing. -/
theorem zero_len_static_rejected :
    mpsseStep 0 (Cmd.clock_data_out ClockDataOut.MsbPos []) = none := by decide

/-- Claim C4 (amended): in the Dynamic Builder a zero-length request of any
family returns the builder unchanged without failing; in the Static Builder
(`mpsse` macro) a zero-length request of any clocking family fails the
length assert and appends nothing. -/
theorem zero_len_dynamic_noop (n : Nat) :
    (∀ (b : MpsseCmdBuilder) (mode : ClockDataOut),
      b.clock_data_out mode [] = some b)
  ∧ (∀ (b : MpsseCmdBuilder) (mode : ClockDataIn), b.clock_data_in mode 0 = some b)
  ∧ (∀ (b : MpsseCmdBuilder) (mode : ClockData), b.clock_data mode [] = some b)
  ∧ (∀ (b : MpsseCmdBuilder) (mode : ClockBitsOut) (data : Nat),
      b.clock_bits_out mode data 0 = some b)
  ∧ (∀ (b : MpsseCmdBuilder) (mode : ClockBitsIn), b.clock_bits_in mode 0 = some b)
  ∧ (∀ (b : MpsseCmdBuilder) (mode : ClockBits) (data : Nat),
      b.clock_bits mode data 0 = some b)
  ∧ (∀ (b : MpsseCmdBuilder) (mode : ClockTMSOut) (data : Nat) (tdi : Bool),
      b.clock_tms_out mode data tdi 0 = some b)
  ∧ (∀ (b : MpsseCmdBuilder) (mode : ClockTMS) (data : Nat) (tdi : Bool),
      b.clock_tms mode data tdi 0 = some b)
  ∧ (∀ (mode : ClockDataOut), mpsseStep n (Cmd.clock_data_out mode []) = none)
  ∧ (∀ (mode : ClockDataIn), mpsseStep n (Cmd.clock_data_in mode 0) = none)
  ∧ (∀ (mode : ClockData), mpsseStep n (Cmd.clock_data mode []) = none)
  ∧ (∀ (mode : ClockBitsOut) (data : Nat),
      mpsseStep n (Cmd.clock_bits_out mode data 0) = none)
  ∧ (∀ (mode : ClockBitsIn), mpsseStep n (Cmd.clock_bits_in mode 0) = none)
  ∧ (∀ (mode : ClockBits) (data : Nat),
      mpsseStep n (Cmd.clock_bits mode data 0) = none)
  ∧ (∀ (mode : ClockTMSOut) (data : Nat) (tdi : Bool),
      mpsseStep n (Cmd.clock_tms_out mode data tdi 0) = none)
  ∧ (∀ (mode : ClockTMS) (data : Nat) (tdi : Bool),
      mpsseStep n (Cmd.clock_tms mode data tdi 0) = none) := by
  refine ⟨?_, ?_, ?_, ?_, ?_, ?_, ?_, ?_, ?_, ?_, ?_, ?_, ?_, ?_, ?_, ?_⟩ <;>
    intros <;> rfl

/-- Claim C5: every request whose count exceeds the family's maximum
(65536 for byte-granular, 8 for bit-granular, 7 for TMS) fails fatally with
nothing appended, in both the Dynamic Builder (the `assert!` fires before
any push) and the Static Builder. -/
theorem overlong_request_fatal (b : MpsseCmdBuilder) (n : Nat) :
    (∀ (mode : ClockDataOut) (data : List Nat), 65536 < data.length →
      b.clock_data_out mode data = none
      ∧ mpsseStep n (Cmd.clock_data_out mode data) = none)
  ∧ (∀ (mode : ClockDataIn) (len : Nat), 65536 < len →
      b.clock_data_in mode len = none
      ∧ mpsseStep n (Cmd.clock_data_in mode len) = none)
  ∧ (∀ (mode : ClockData) (data : List Nat), 65536 < data.length →
      b.clock_data mode data = none
      ∧ mpsseStep n (Cmd.clock_data mode data) = none)
  ∧ (∀ (mode : ClockBitsOut) (data len : Nat), 8 < len →
      b.clock_bits_out mode data len = none
      ∧ mpsseStep n (Cmd.clock_bits_out mode data len) = none)
  ∧ (∀ (mode : ClockBitsIn) (len : Nat), 8 < len →
      b.clock_bits_in mode len = none
      ∧ mpsseStep n (Cmd.clock_bits_in mode len) = none)
  ∧ (∀ (mode : ClockBits) (data len : Nat), 8 < len →
      b.clock_bits mode data len = none
      ∧ mpsseStep n (Cmd.clock_bits mode data len) = none)
  ∧ (∀ (mode : ClockTMSOut) (data : Nat) (tdi : Bool) (len : Nat), 7 < len →
      b.clock_tms_out mode data tdi len = none
      ∧ mpsseStep n (Cmd.clock_tms_out mode data tdi len) = none)
  ∧ (∀ (mode : ClockTMS) (data : Nat) (tdi : Bool) (len : Nat), 7 < len →
      b.clock_tms mode data tdi len = none
      ∧ mpsseStep n (Cmd.clock_tms mode data tdi len) = none) := by
  refine ⟨?_, ?_, ?_, ?_, ?_, ?_, ?_, ?_⟩ <;> intros <;>
    constructor <;>
    simp_all [MpsseCmdBuilder.clock_data_out, MpsseCmdBuilder.clock_data_in,
      MpsseCmdBuilder.clock_data, MpsseCmdBuilder.clock_bits_out,
      MpsseCmdBuilder.clock_bits_in, MpsseCmdBuilder.clock_bits,
      MpsseCmdBuilder.clock_tms_out, MpsseCmdBuilder.clock_tms, mpsseStep]

/-- Witness for C5: an over-maximum request of each family is rejected. -/
theorem overlong_request_fatal_witness :
    ((65536 : Nat) < 65537
      ∧ MpsseCmdBuilder.new.clock_data_in ClockDataIn.MsbPos 65537 = none)
  ∧ ((8 : Nat) < 9
      ∧ MpsseCmdBuilder.new.clock_bits_in ClockBitsIn.MsbPos 9 = none)
  ∧ ((7 : Nat) < 8
      ∧ MpsseCmdBuilder.new.clock_tms ClockTMS.PosTMSPosTDO 0 true 8 = none) :=
  ⟨⟨by decide, ((overlong_request_fatal MpsseCmdBuilder.new 0).2.1
      ClockDataIn.MsbPos 65537 (by decide)).1⟩,
    ⟨by decide, ((overlong_request_fatal MpsseCmdBuilder.new 0).2.2.2.2.1
      ClockBitsIn.MsbPos 9 (by decide)).1⟩,
    ⟨by decide, ((overlong_request_fatal MpsseCmdBuilder.new 0).2.2.2.2.2.2.2
      ClockTMS.PosTMSPosTDO 0 true 8 (by decide)).1⟩⟩

set_option maxRecDepth 10000 in
/-- Claim C6: for every TMS operation (`clock_tms_out`, `clock_tms`, in
both builders) with a count in `1..=7` and any input byte: with
`tdi = true` the transmitted data byte is `data | 0x80`, whose bit 7 is set
regardless of the input's own bit 7 and whose lower 7 bits equal the
input's lower 7 bits; with `tdi = false` the transmitted data byte is the
input byte unchanged. -/
theorem tms_tdi_bit (b : MpsseCmdBuilder) (n : Nat) (m1 : ClockTMSOut)
    (m2 : ClockTMS) (data : Nat) (tdi : Bool) (len : Nat)
    (hd : data < 256) (h1 : 1 ≤ len) (h7 : len ≤ 7) :
    b.clock_tms_out m1 data tdi len
      = some ⟨b.buf ++ [m1.val, len - 1, if tdi then data ||| 0x80 else data]⟩
  ∧ b.clock_tms m2 data tdi len
      = some ⟨b.buf ++ [m2.val, len - 1, if tdi then data ||| 0x80 else data]⟩
  ∧ mpsseStep n (Cmd.clock_tms_out m1 data tdi len)
      = some ([m1.val, len - 1, if tdi then data ||| 0x80 else data], n, none)
  ∧ mpsseStep n (Cmd.clock_tms m2 data tdi len)
      = some ([m2.val, len - 1, if tdi then data ||| 0x80 else data],
          n + 1, some (n, 1))
  ∧ (data ||| 0x80).testBit 7 = true
  ∧ (data ||| 0x80) % 128 = data % 128 := by
  have key : ∀ d : Nat, d < 256 →
      ((d ||| 128).testBit 7 = true ∧ (d ||| 128) % 128 = d % 128) := by decide
  have hor : (if tdi then data ||| 0x80 else data)
      = data ||| (if tdi then 0x80 else 0) := by
    cases tdi <;> simp
  refine ⟨?_, ?_, ?_, ?_, (key data hd).1, (key data hd).2⟩
  · rw [MpsseCmdBuilder.clock_tms_out, if_pos h7, if_neg (by omega)]
  · rw [MpsseCmdBuilder.clock_tms, if_pos h7, if_neg (by omega)]
  · rw [mpsseStep, if_pos ⟨h1, h7⟩, hor]
  · rw [mpsseStep, if_pos ⟨h1, h7⟩, hor]

/-- Witness for C6: clocking 4 TMS bits of `0x0A` with `tdi = true`
transmits data byte `0x8A`; with `tdi = false` it transmits `0x0A`. -/
theorem tms_tdi_bit_witness :
    ((0x0A : Nat) < 256 ∧ (1 : Nat) ≤ 4 ∧ (4 : Nat) ≤ 7)
  ∧ MpsseCmdBuilder.new.clock_tms ClockTMS.PosTMSPosTDO 0x0A true 4
      = some ⟨[0x6A, 0x03, 0x8A]⟩
  ∧ MpsseCmdBuilder.new.clock_tms ClockTMS.PosTMSPosTDO 0x0A false 4
      = some ⟨[0x6A, 0x03, 0x0A]⟩ := by
  refine ⟨⟨by decide, by decide, by decide⟩, ?_, ?_⟩
  · have h := (tms_tdi_bit MpsseCmdBuilder.new 0 ClockTMSOut.PosEdge
      ClockTMS.PosTMSPosTDO 0x0A true 4 (by decide) (by decide) (by decide)).2.1
    rw [h]; decide
  · have h := (tms_tdi_bit MpsseCmdBuilder.new 0 ClockTMSOut.PosEdge
      ClockTMS.PosTMSPosTDO 0x0A false 4 (by decide) (by decide) (by decide)).2.1
    rw [h]; decide

/-- Claim C7: `set_clock` first appends the enable-divide opcode (0x8B) for
`Some(true)`, the disable-divide opcode (0x8A) for `Some(false)`, and
nothing for `None`; then always the frequency-set opcode (0x86) followed by
the divisor's low byte and second byte, in that order, and nothing else;
the divisor's upper 16 bits never affect the output. -/
theorem set_clock_layout (b : MpsseCmdBuilder) (divisor : Nat)
    (clkdiv : Option Bool) :
    (b.set_clock divisor clkdiv).buf
      = b.buf
        ++ (match clkdiv with
            | some true => [MpsseCmd.EnableClockDivide.val]
            | some false => [MpsseCmd.DisableClockDivide.val]
            | none => [])
        ++ [MpsseCmd.SetClockFrequency.val, divisor % 256, divisor / 256 % 256]
  ∧ b.set_clock divisor clkdiv = b.set_clock (divisor % 65536) clkdiv := by
  have h1 : divisor % 65536 % 256 = divisor % 256 := by omega
  have h2 : divisor % 65536 / 256 % 256 = divisor / 256 % 256 := by omega
  constructor
  · rcases clkdiv with _ | t
    · rfl
    · cases t <;> rfl
  · simp only [MpsseCmdBuilder.set_clock, h1, h2]

/-- Claim C8: from an empty builder, `set_gpio_lower(0xFF, 0xFF)` then
`set_gpio_lower(0x00, 0xFF)` then `send_immediate()` produces exactly
`[0x80, 0xFF, 0xFF, 0x80, 0x00, 0xFF, 0x87]`. -/
theorem gpio_send_immediate_example :
    (((MpsseCmdBuilder.new.set_gpio_lower 0xFF 0xFF).set_gpio_lower
        0x00 0xFF).send_immediate).buf
      = [0x80, 0xFF, 0xFF, 0x80, 0x00, 0xFF, 0x87] := by rfl

/-- Claim C3 (code bug): the Dynamic Builder encodes
`enable_adaptive_data_clocking` / `disable_adaptive_data_clocking` as the
bytes 0x96 / 0x97, but the Static Builder's rules for the same commands
name `MpsseCmd::EnableDataClocking` / `MpsseCmd::DisableDataClocking`,
variants that do not exist in the `MpsseCmd` enum, so the macro expansion
fails and produces no bytes — the two builders are not byte-for-byte
equivalent on these command sequences. -/
theorem adaptive_clocking_divergence :
    mpsseBuild 0 [Cmd.enable_adaptive_data_clocking] = none
  ∧ mpsseBuild 0 [Cmd.disable_adaptive_data_clocking] = none
  ∧ applyCmds MpsseCmdBuilder.new [Cmd.enable_adaptive_data_clocking]
      = some ⟨[0x96]⟩
  ∧ applyCmds MpsseCmdBuilder.new [Cmd.disable_adaptive_data_clocking]
      = some ⟨[0x97]⟩ := by
  refine ⟨rfl, rfl, rfl, rfl⟩

/-- A successful `mpsse` macro step advances the ledger by exactly the
command's response width and records `(read_len, width)` precisely for the
read-declaring commands. -/
theorem mpsseStep_ledger (n : Nat) (c : Cmd) (bs : List Nat) (rl : Nat)
    (r : Option (Nat × Nat)) (h : mpsseStep n c = some (bs, rl, r)) :
    rl = n + c.respWidth
    ∧ r = (if c.readDeclaring then some (n, c.respWidth) else none) := by
  cases c <;>
    simp only [mpsseStep] at h <;>
    (try split at h) <;>
    simp_all [Cmd.respWidth, Cmd.readDeclaring]

/-- A command that declares no response bytes has response width zero. -/
theorem respWidth_of_not_readDeclaring (c : Cmd)
    (h : c.readDeclaring = false) : c.respWidth = 0 := by
  cases c <;> simp_all [Cmd.readDeclaring, Cmd.respWidth]

/-- Claim C2: running any command sequence through the Static Builder from
ledger value `n`, the recorded `(offset, width)` pairs of the k
read-declaring commands are exactly the cumulative sums of their response
widths paired with those widths (the i-th offset is `n` plus the sum of the
previous widths, captured before that command's bytes are added, and the
i-th width is that command's response width), and the final ledger value is
`n` plus the sum of all k widths. -/
theorem ledger_cumulative (cmds : List Cmd) (n : Nat) (bs : List Nat)
    (total : Nat) (recs : List (Nat × Nat))
    (h : mpsseBuild n cmds = some (bs, total, recs)) :
    recs = (partialSums n ((cmds.filter Cmd.readDeclaring).map Cmd.respWidth)).zip
        ((cmds.filter Cmd.readDeclaring).map Cmd.respWidth)
    ∧ recs.map Prod.snd = (cmds.filter Cmd.readDeclaring).map Cmd.respWidth
    ∧ total = n + ((cmds.filter Cmd.readDeclaring).map Cmd.respWidth).sum := by
  induction cmds generalizing n bs total recs with
  | nil =>
    simp only [mpsseBuild, Option.some.injEq, Prod.mk.injEq] at h
    obtain ⟨h1, h2, h3⟩ := h
    subst h2 h3
    simp [partialSums]
  | cons c cs ih =>
    unfold mpsseBuild at h
    cases hstep : mpsseStep n c with
    | none => rw [hstep] at h; exact absurd h (by simp)
    | some v =>
      obtain ⟨bs1, rl, r⟩ := v
      rw [hstep] at h
      dsimp only at h
      cases hrest : mpsseBuild rl cs with
      | none => rw [hrest] at h; exact absurd h (by simp)
      | some w =>
        obtain ⟨bs2, rl2, recs2⟩ := w
        rw [hrest] at h
        simp only [Option.some.injEq, Prod.mk.injEq] at h
        obtain ⟨hb, ht, hr⟩ := h
        obtain ⟨hw, hrec⟩ := mpsseStep_ledger n c bs1 rl r hstep
        obtain ⟨ih1, ih2, ih3⟩ := ih rl bs2 rl2 recs2 hrest
        cases hd : c.readDeclaring with
        | true =>
          rw [hd] at hrec
          simp only [if_true] at hrec
          subst hrec hr ht hw
          refine ⟨?_, ?_, ?_⟩
          · simp [List.filter_cons, hd, partialSums, ih1]
          · simp [List.filter_cons, hd, ih2]
          · simp only [List.filter_cons, hd, if_true, List.map_cons,
              List.sum_cons]
            omega
        | false =>
          rw [hd] at hrec
          simp only [Bool.false_eq_true, if_false] at hrec
          have hw0 : c.respWidth = 0 := respWidth_of_not_readDeclaring c hd
          subst hrec hr ht
          rw [hw0] at hw
          subst hw
          refine ⟨?_, ?_, ?_⟩
          · simpa [List.filter_cons, hd] using ih1
          · simpa [List.filter_cons, hd] using ih2
          · simpa [List.filter_cons, hd] using ih3

/-- Witness for C2: a `gpio_lower`, a 3-byte `clock_data_in`, and a
`clock_bits_in` record offsets 0, 1 and 4 with widths 1, 3 and 1, and leave
the ledger at 5. -/
theorem ledger_cumulative_witness :
    mpsseBuild 0 [Cmd.gpio_lower, Cmd.clock_data_in ClockDataIn.MsbPos 3,
        Cmd.clock_bits_in ClockBitsIn.MsbPos 2]
      = some ([0x81, 0x20, 0x02, 0x00, 0x22, 0x01], 5, [(0, 1), (1, 3), (4, 1)])
    ∧ (5 : Nat)
      = 0 + ((([Cmd.gpio_lower, Cmd.clock_data_in ClockDataIn.MsbPos 3,
          Cmd.clock_bits_in ClockBitsIn.MsbPos 2].filter
            Cmd.readDeclaring).map Cmd.respWidth)).sum :=
  ⟨rfl,
    (ledger_cumulative
      [Cmd.gpio_lower, Cmd.clock_data_in ClockDataIn.MsbPos 3,
        Cmd.clock_bits_in ClockBitsIn.MsbPos 2]
      0 [0x81, 0x20, 0x02, 0x00, 0x22, 0x01] 5 [(0, 1), (1, 3), (4, 1)]
      rfl).2.2⟩

/-- Each Dynamic Builder step appends a byte suffix that depends only on
the command, not on the bytes already in the buffer, and fails exactly when
the same command fails on an empty builder. -/
theorem applyCmd_shift (b : MpsseCmdBuilder) (c : Cmd) :
    applyCmd b c
      = Option.map (fun b2 => MpsseCmdBuilder.with_vec (b.buf ++ b2.buf))
          (applyCmd MpsseCmdBuilder.new c) := by
  obtain ⟨bb⟩ := b
  cases c <;>
    simp only [applyCmd, MpsseCmdBuilder.new, MpsseCmdBuilder.with_vec,
      MpsseCmdBuilder.enable_loopback, MpsseCmdBuilder.disable_loopback,
      MpsseCmdBuilder.enable_3phase_data_clocking,
      MpsseCmdBuilder.disable_3phase_data_clocking,
      MpsseCmdBuilder.enable_adaptive_data_clocking,
      MpsseCmdBuilder.disable_adaptive_data_clocking,
      MpsseCmdBuilder.set_clock, MpsseCmdBuilder.set_gpio_lower,
      MpsseCmdBuilder.set_gpio_upper, MpsseCmdBuilder.gpio_lower,
      MpsseCmdBuilder.gpio_upper, MpsseCmdBuilder.send_immediate,
      MpsseCmdBuilder.wait_on_io_high, MpsseCmdBuilder.wait_on_io_low,
      MpsseCmdBuilder.clock_data_out, MpsseCmdBuilder.clock_data_in,
      MpsseCmdBuilder.clock_data, MpsseCmdBuilder.clock_bits_out,
      MpsseCmdBuilder.clock_bits_in, MpsseCmdBuilder.clock_bits,
      MpsseCmdBuilder.clock_tms_out, MpsseCmdBuilder.clock_tms] <;>
    (try split) <;> (try split) <;> simp

/-- Dynamic Builder runs are invariant under a pre-existing buffer prefix:
running from buffer `u` equals running from the empty buffer with `u`
prepended, with the same success or failure. -/
theorem applyCmds_shift (cs : List Cmd) (b : MpsseCmdBuilder) :
    applyCmds b cs
      = Option.map (fun b2 => MpsseCmdBuilder.with_vec (b.buf ++ b2.buf))
          (applyCmds MpsseCmdBuilder.new cs) := by
  induction cs generalizing b with
  | nil => simp [applyCmds, MpsseCmdBuilder.new, MpsseCmdBuilder.with_vec]
  | cons c cs ih =>
    simp only [applyCmds]
    rw [applyCmd_shift b c]
    cases hc : applyCmd MpsseCmdBuilder.new c with
    | none => rfl
    | some b1 =>
      dsimp only [Option.map]
      rw [ih (MpsseCmdBuilder.with_vec (b.buf ++ b1.buf)), ih b1]
      cases hcs : applyCmds MpsseCmdBuilder.new cs with
      | none => rfl
      | some b2 =>
        simp [MpsseCmdBuilder.with_vec, List.append_assoc]

/-- Claim C10: for every initial byte vector `v` and every command
sequence, running the sequence from `with_vec v` yields (when it yields at
all, and it fails exactly when the run from `new` fails) the buffer `v`
followed by the buffer of the same run from `new`, as observed through
`as_slice`. -/
theorem with_vec_prefix (v : List Nat) (cmds : List Cmd) :
    Option.map MpsseCmdBuilder.as_slice
        (applyCmds (MpsseCmdBuilder.with_vec v) cmds)
      = Option.map (fun b => v ++ MpsseCmdBuilder.as_slice b)
          (applyCmds MpsseCmdBuilder.new cmds) := by
  rw [applyCmds_shift cmds (MpsseCmdBuilder.with_vec v)]
  cases applyCmds MpsseCmdBuilder.new cmds with
  | none => rfl
  | some b => simp [MpsseCmdBuilder.as_slice, MpsseCmdBuilder.with_vec]

end FtdiMpsse
